import Mathlib

/-!
Verification of the donation-intake application (src/donation/app.py).

The receipt store, payment-status updates, lookup queries and the Stripe
payment bridge are embedded shallowly: the `donation_receipts` table becomes
a list of `Receipt` records, each SQL statement becomes a pure function on
that list, and the webhook / checkout-session route handlers become functions
from the database state (plus the outcomes of the external Stripe calls,
passed as parameters) to a response and a new database state.
-/

namespace Donation

/-- Minimal stand-in for Python `datetime` values stored in DATETIME columns.
Only `year` is inspected by the modelled code (`create_receipt_record` reads
`donated_at.year`); the other fields make distinct timestamps distinguishable. -/
structure PyDateTime where
  year : Nat
  month : Nat
  day : Nat
  hour : Nat
  minute : Nat
  second : Nat
deriving Repr, DecidableEq

/-- One row of the `donation_receipts` table (schema in `ensure_receipts_table`,
app.py:400-424 plus the ALTER-added Stripe columns and `paid_at`).
Nullable columns are `Option`, TINYINT(1) flags are `Bool`. -/
structure Receipt where
  id : Nat
  certificate_no : String
  donor_name : String
  donor_postal_code : String
  donor_address : String
  donor_email : String
  amount_yen : String
  payment_method : String
  donated_at : PyDateTime
  download_token : Option String
  status : String
  is_checked : Bool
  checked_at : Option PyDateTime
  checked_by : Option String
  is_deleted : Bool
  deleted_at : Option PyDateTime
  deleted_by : Option String
  created_at : PyDateTime
  stripe_checkout_session_id : Option String
  stripe_payment_intent_id : Option String
  stripe_last_event_id : Option String
  paid_at : Option PyDateTime
deriving Repr, DecidableEq

/-- The `donation_receipts` table together with its AUTO_INCREMENT counter. -/
structure Db where
  rows : List Receipt
  next_id : Nat
deriving Repr, DecidableEq

/-- SQL `COALESCE(a, b)` on nullable values. -/
def coalesce {α : Type} (a b : Option α) : Option α :=
  match a with
  | some x => some x
  | none => b

/-- Python `str.strip()`: drop leading and trailing whitespace. -/
def pyStrip (s : String) : String :=
  String.mk
    (((s.toList.dropWhile Char.isWhitespace).reverse.dropWhile
      Char.isWhitespace).reverse)

/-- Python regex class `\d` on the characters this application receives:
ASCII digits and full-width digits (both are kept by
`re.sub(r"[^\d]", "", ...)` and accepted by `int(...)`). -/
def pyIsDigit (c : Char) : Bool :=
  c.isDigit || (0xFF10 ≤ c.toNat && c.toNat ≤ 0xFF19)

/-- Decimal value of a character accepted by `pyIsDigit`. -/
def pyDigitVal (c : Char) : Nat :=
  if c.isDigit then c.toNat - 48 else c.toNat - 0xFF10

/-- Value of a digit string, as computed by Python `int(...)` on it. -/
def digitsToNat (s : String) : Nat :=
  s.toList.foldl (fun acc c => acc * 10 + pyDigitVal c) 0

/-- Model of `re.sub(r"[^\d]", "", raw.strip())` from `parse_amount_yen`. -/
def pyDigits (s : String) : String :=
  String.mk ((pyStrip s).toList.filter pyIsDigit)

/-- Function `parse_amount_yen` (app.py:305-312): strip the raw string, drop every
non-digit character, fail on an empty result, and accept the integer value
only when it lies in `[min_amount, max_amount]`; failures are Python
`ValueError`s, modelled as `Except.error` carrying the message. -/
def parse_amount_yen (min_amount max_amount : Nat) (raw_amount : String) :
    Except String Nat :=
  let digits_only := pyDigits raw_amount
  if digits_only.isEmpty then
    Except.error "寄付金額が不正です。"
  else
    let amount := digitsToNat digits_only
    if amount < min_amount ∨ amount > max_amount then
      Except.error s!"寄付金額は {min_amount} 〜 {max_amount} 円で指定してください。"
    else
      Except.ok amount

/-- Python format `f"{receipt_id:06d}"` for the nonnegative ids MySQL assigns:
left-pad the decimal representation with zeros to width 6. -/
def formatZeroPad6 (n : Nat) : String :=
  let s := toString n
  String.mk (List.replicate (6 - s.length) '0') ++ s

/-- Function `create_receipt_record` (app.py:562-591): INSERT a row with a placeholder
certificate number and status `'created'` (all other columns take their schema
defaults), read back the AUTO_INCREMENT id, then UPDATE the row with the final
certificate number `f"RCPT-{donated_at.year}-{receipt_id:06d}"`.  The random
placeholder suffix and the INSERT-time `NOW()` are parameters. -/
def create_receipt_record (db : Db) (name postal_code address email amount
    payment_method : String) (donated_at : PyDateTime) (temp_suffix : String)
    (now : PyDateTime) : Db × Nat × String :=
  let receipt_id := db.next_id
  let inserted : Receipt :=
    { id := receipt_id
      certificate_no := "TEMP-" ++ temp_suffix
      donor_name := name
      donor_postal_code := postal_code
      donor_address := address
      donor_email := email
      amount_yen := amount
      payment_method := payment_method
      donated_at := donated_at
      download_token := none
      status := "created"
      is_checked := false
      checked_at := none
      checked_by := none
      is_deleted := false
      deleted_at := none
      deleted_by := none
      created_at := now
      stripe_checkout_session_id := none
      stripe_payment_intent_id := none
      stripe_last_event_id := none
      paid_at := none }
  let certificate_no :=
    "RCPT-" ++ toString donated_at.year ++ "-" ++ formatZeroPad6 receipt_id
  let rows := (db.rows ++ [inserted]).map fun r =>
    if r.id == receipt_id then { r with certificate_no := certificate_no } else r
  ({ rows := rows, next_id := db.next_id + 1 }, receipt_id, certificate_no)

/-- Function `update_receipt_status` (app.py:594-604):
`UPDATE ... SET status=%s, download_token=COALESCE(%s, download_token) WHERE id=%s`. -/
def update_receipt_status (db : Db) (receipt_id : Nat) (status : String)
    (token : Option String) : Db :=
  { db with rows := db.rows.map fun r =>
      if r.id == receipt_id then
        { r with status := status, download_token := coalesce token r.download_token }
      else r }

/-- The row transformation performed by the UPDATE in
`update_receipt_payment_status` (app.py:690-703). -/
def payment_row_update (status : String)
    (checkout_session_id payment_intent_id stripe_event_id : Option String)
    (now : PyDateTime) (r : Receipt) : Receipt :=
  { r with
    status := status
    stripe_checkout_session_id :=
      coalesce checkout_session_id r.stripe_checkout_session_id
    stripe_payment_intent_id :=
      coalesce payment_intent_id r.stripe_payment_intent_id
    stripe_last_event_id := coalesce stripe_event_id r.stripe_last_event_id
    paid_at := if status == "paid" then coalesce r.paid_at (some now) else r.paid_at }

/-- Function `update_receipt_payment_status` (app.py:682-704): applies
`payment_row_update` to the rows matching `WHERE id=%s`; `NOW()` is the `now`
parameter. -/
def update_receipt_payment_status (db : Db) (receipt_id : Int) (status : String)
    (checkout_session_id payment_intent_id stripe_event_id : Option String)
    (now : PyDateTime) : Db :=
  { db with rows := db.rows.map fun r =>
      if ((r.id : Int) == receipt_id) then
        (payment_row_update status checkout_session_id payment_intent_id
          stripe_event_id now r)
      else r }

/-- Function `get_receipt_by_id` (app.py:607-629):
`SELECT ... WHERE id=%s AND is_deleted=0 LIMIT 1`. -/
def get_receipt_by_id (db : Db) (receipt_id : Int) : Option Receipt :=
  db.rows.find? fun r => ((r.id : Int) == receipt_id) && !r.is_deleted

/-- Function `get_receipt_by_certificate_no` (app.py:632-654):
`SELECT ... WHERE certificate_no=%s AND is_deleted=0 LIMIT 1`. -/
def get_receipt_by_certificate_no (db : Db) (certificate_no : String) :
    Option Receipt :=
  db.rows.find? fun r => (r.certificate_no == certificate_no) && !r.is_deleted

/-- Function `get_receipt_by_stripe_payment_intent` (app.py:657-679):
`SELECT ... WHERE stripe_payment_intent_id=%s LIMIT 1` — note that, unlike the
two lookups above, this query has no `is_deleted=0` condition. -/
def get_receipt_by_stripe_payment_intent (db : Db) (payment_intent_id : String) :
    Option Receipt :=
  db.rows.find? fun r => r.stripe_payment_intent_id == some payment_intent_id

/-- Function `normalize_payment_method` (app.py:296-302). -/
def normalize_payment_method (payment_method : String) : String :=
  let value := pyStrip payment_method
  if value == "銀行振込" || value == "振込" || value == "振り込み" then
    "bank_transfer"
  else if value == "クレジットカード" then "credit_card"
  else "cash"

/-- Insertion step for `ORDER BY id DESC`. -/
def insertDescById (r : Receipt) : List Receipt → List Receipt
  | [] => [r]
  | x :: xs => if x.id ≤ r.id then r :: x :: xs else x :: insertDescById r xs

/-- Insertion sort realising `ORDER BY id DESC`. -/
def sortDescById : List Receipt → List Receipt
  | [] => []
  | x :: xs => insertDescById x (sortDescById xs)

/-- The admin dashboard listing query (app.py:773-799):
`SELECT ... WHERE is_deleted=0 ORDER BY id DESC LIMIT 100`. -/
def admin_dashboard_rows (db : Db) : List Receipt :=
  (sortDescById (db.rows.filter fun r => !r.is_deleted)).take 100

/-- Python `int(s)` on the optionally-signed decimal strings this application
encounters; any other string raises `ValueError`, modelled as `none`. -/
def pyParseInt (s : String) : Option Int :=
  match (pyStrip s).toList with
  | [] => none
  | c :: cs =>
    let (neg, digits) :=
      if c == '-' then (true, cs)
      else if c == '+' then (false, cs)
      else (false, c :: cs)
    if digits.isEmpty || !digits.all Char.isDigit then none
    else
      let n : Int := Int.ofNat (digitsToNat (String.mk digits))
      some (if neg then -n else n)

/-- Python truthiness of an `int`-or-`None` value (`if receipt_id:`). -/
def truthyInt : Option Int → Bool
  | some n => n != 0
  | none => false

/-- Python truthiness of a `str`-or-`None` value (`if payment_intent_id:`). -/
def truthyStr : Option String → Bool
  | some s => !s.isEmpty
  | none => false

/-- The fields of a verified Stripe event that `stripe_webhook` reads:
`event["type"]`, `event.get("id")`, and on `obj = event["data"]["object"]`
the values `obj.get("id")`, `obj.get("payment_intent")` and
`obj.get("metadata", {}).get("receipt_id")`. -/
structure StripeEvent where
  event_type : String
  event_id : Option String
  object_id : Option String
  object_payment_intent : Option String
  metadata_receipt_id : Option String
deriving Repr, DecidableEq

/-- Webhook receipt-id resolution from event metadata (app.py:1196-1202):
`if metadata.get("receipt_id"):` (truthy, i.e. a non-empty string) followed by
`int(...)` with the exception mapped back to `None`. -/
def metadataReceiptId (e : StripeEvent) : Option Int :=
  match e.metadata_receipt_id with
  | some s => if s.isEmpty then none else pyParseInt s
  | none => none

/-- The shared shape of the three webhook mutation branches
(app.py:1207-1217, 1224-1233, 1240-1249): re-read the row by id and update it
only when the stored `stripe_last_event_id` differs from the incoming event id. -/
def applyEvent (db : Db) (receipt_id : Int) (status : String)
    (checkout_session_id payment_intent_id stripe_event_id : Option String)
    (now : PyDateTime) : Db :=
  match get_receipt_by_id db receipt_id with
  | some row =>
    if row.stripe_last_event_id != stripe_event_id then
      update_receipt_payment_status db receipt_id status checkout_session_id
        payment_intent_id stripe_event_id now
    else db
  | none => db

/-- Guard `if receipt_id:` around each webhook mutation branch: the branch body
runs only for a non-`None`, non-zero resolved receipt id. -/
def applyForRid (db : Db) (receipt_id : Option Int) (status : String)
    (checkout_session_id payment_intent_id stripe_event_id : Option String)
    (now : PyDateTime) : Db :=
  match receipt_id with
  | some rid =>
    if rid != 0 then
      (applyEvent db rid status checkout_session_id payment_intent_id
        stripe_event_id now)
    else db
  | none => db

/-- Receipt-id resolution for the `payment_intent.*` branches
(app.py:1221-1223, 1237-1239): `if not receipt_id and payment_intent_id:`
look the receipt up by payment-intent id and take its `id`, else keep the
metadata-derived id. -/
def resolveByIntent (db : Db) (receipt_id : Option Int)
    (payment_intent_id : Option String) : Option Int :=
  if !truthyInt receipt_id && truthyStr payment_intent_id then
    match get_receipt_by_stripe_payment_intent db (payment_intent_id.getD "") with
    | some r => some (r.id : Int)
    | none => none
  else receipt_id

/-- The state change performed by `stripe_webhook` (app.py:1187-1249) for a
successfully verified event: dispatch on the event type;
`checkout.session.completed` and `payment_intent.succeeded` mark the receipt
`paid`, `payment_intent.payment_failed` marks it `payment_failed`; any other
event type is ignored.  `NOW()` is the `now` parameter. -/
def stripe_webhook_apply (db : Db) (e : StripeEvent) (now : PyDateTime) : Db :=
  let receipt_id := metadataReceiptId e
  if e.event_type == "checkout.session.completed" then
    applyForRid db receipt_id "paid" e.object_id e.object_payment_intent
      e.event_id now
  else if e.event_type == "payment_intent.succeeded" then
    applyForRid db (resolveByIntent db receipt_id e.object_id) "paid" none
      e.object_id e.event_id now
  else if e.event_type == "payment_intent.payment_failed" then
    applyForRid db (resolveByIntent db receipt_id e.object_id) "payment_failed"
      none e.object_id e.event_id now
  else db

/-- Outcome of `stripe.Webhook.construct_event` (app.py:1180-1185):
a verified event, a `ValueError` for a malformed payload, or a
`SignatureVerificationError`. -/
inductive ConstructEventResult where
  | ok (e : StripeEvent)
  | invalidPayload
  | invalidSignature
deriving Repr, DecidableEq

/-- The observable part of a JSON route response: HTTP status code, the `ok`
flag, and the `error` message when present. -/
structure HttpResponse where
  status_code : Nat
  ok : Bool
  error : Option String
deriving Repr, DecidableEq

/-- The `/api/stripe/webhook` handler `stripe_webhook` (app.py:1170-1258).
`stripe_ready` is the outcome of `validate_stripe_ready`, `webhook_secret` is
`STRIPE_WEBHOOK_SECRET`, and `construct_event` is the signature-verification
outcome for the request's payload and `Stripe-Signature` header.  The database
is touched only after all three checks pass. -/
def stripe_webhook (stripe_ready : Bool) (webhook_secret : String)
    (construct_event : ConstructEventResult) (db : Db) (now : PyDateTime) :
    HttpResponse × Db :=
  if !stripe_ready then
    ({ status_code := 500, ok := false, error := some "Stripe設定が未完了です。" }, db)
  else if webhook_secret.isEmpty then
    ({ status_code := 500, ok := false,
       error := some "STRIPE_WEBHOOK_SECRET が未設定です。" }, db)
  else
    match construct_event with
    | ConstructEventResult.invalidPayload =>
      ({ status_code := 400, ok := false, error := some "Invalid payload" }, db)
    | ConstructEventResult.invalidSignature =>
      ({ status_code := 400, ok := false, error := some "Invalid signature" }, db)
    | ConstructEventResult.ok e =>
      ({ status_code := 200, ok := true, error := none },
        stripe_webhook_apply db e now)

/-- Outcome of `stripe.checkout.Session.create` (app.py:1127-1150): the
created session's id and URL, or an API exception message. -/
inductive StripeSessionResult where
  | ok (session_id url : String)
  | apiError (msg : String)
deriving Repr, DecidableEq

/-- The `/api/stripe/checkout-session` handler `create_checkout_session`
(app.py:1094-1165).  `receipt_id_raw` is `str(payload.get("receipt_id"))` when
the key is present, `certificate_no_raw` is `str(payload.get("certificate_no", ""))`,
and `stripe_create` is the outcome of the Stripe API call.  A `ValueError`
from `parse_amount_yen` or a Stripe API failure is caught by the broad
`except` and becomes a 500 response with the exception text. -/
def create_checkout_session (stripe_ready : Bool) (min_amount max_amount : Nat)
    (db : Db) (receipt_id_raw : Option String) (certificate_no_raw : String)
    (stripe_create : StripeSessionResult) (now : PyDateTime) :
    HttpResponse × Db :=
  if !stripe_ready then
    ({ status_code := 500, ok := false, error := some "Stripe設定が未完了です。" }, db)
  else
    let certificate_no := pyStrip certificate_no_raw
    let parsed : Except HttpResponse (Option Int) :=
      match receipt_id_raw with
      | none => Except.ok none
      | some s =>
        if s.isEmpty then Except.ok none
        else
          match pyParseInt s with
          | some n => Except.ok (some n)
          | none =>
            Except.error
              ({ status_code := 400, ok := false,
                 error := some "receipt_id は数値で指定してください。" })
    match parsed with
    | Except.error resp => (resp, db)
    | Except.ok receipt_id =>
      if receipt_id == none && certificate_no.isEmpty then
        ({ status_code := 400, ok := false,
           error := some "receipt_id または certificate_no を指定してください。" }, db)
      else
        let row? :=
          match receipt_id with
          | some rid => get_receipt_by_id db rid
          | none => get_receipt_by_certificate_no db certificate_no
        match row? with
        | none =>
          ({ status_code := 404, ok := false,
             error := some "対象の寄付データが見つかりません。" }, db)
        | some row =>
          if normalize_payment_method row.payment_method != "credit_card" then
            ({ status_code := 400, ok := false,
               error := some "クレジットカード決済のデータではありません。" }, db)
          else
            match parse_amount_yen min_amount max_amount row.amount_yen with
            | Except.error msg =>
              ({ status_code := 500, ok := false, error := some msg }, db)
            | Except.ok _amount =>
              match stripe_create with
              | StripeSessionResult.apiError msg =>
                ({ status_code := 500, ok := false, error := some msg }, db)
              | StripeSessionResult.ok session_id _url =>
                ({ status_code := 200, ok := true, error := none },
                  update_receipt_payment_status db (row.id : Int)
                    "checkout_created" (some session_id) none none now)

/-- A fixed timestamp for concrete instances. -/
def epoch : PyDateTime := ⟨2025, 1, 1, 0, 0, 0⟩

/-- A later fixed timestamp for concrete instances. -/
def epoch2 : PyDateTime := ⟨2025, 1, 2, 3, 4, 5⟩

/-- A concrete credit-card receipt used by concrete instances. -/
def sampleReceipt : Receipt :=
  { id := 1
    certificate_no := "RCPT-2025-000001"
    donor_name := "匿名"
    donor_postal_code := "100-0001"
    donor_address := "東京都"
    donor_email := "donor@example.com"
    amount_yen := "5000"
    payment_method := "クレジットカード"
    donated_at := epoch
    download_token := none
    status := "created"
    is_checked := false
    checked_at := none
    checked_by := none
    is_deleted := false
    deleted_at := none
    deleted_by := none
    created_at := epoch
    stripe_checkout_session_id := none
    stripe_payment_intent_id := none
    stripe_last_event_id := none
    paid_at := none }

/-- Variant of `sampleReceipt`, soft-deleted and carrying a payment-intent id. -/
def deletedIntentReceipt : Receipt :=
  { sampleReceipt with
    is_deleted := true
    deleted_by := some "admin"
    stripe_payment_intent_id := some "pi_123" }

/-- A one-row database holding only `sampleReceipt`. -/
def sampleDb : Db := { rows := [sampleReceipt], next_id := 2 }

/-- A one-row database holding only the soft-deleted `deletedIntentReceipt`. -/
def deletedDb : Db := { rows := [deletedIntentReceipt], next_id := 2 }

/-- A `payment_intent.succeeded` event for receipt 1 with event id `evt_A`. -/
def evPaidA : StripeEvent :=
  { event_type := "payment_intent.succeeded"
    event_id := some "evt_A"
    object_id := some "pi_1"
    object_payment_intent := none
    metadata_receipt_id := some "1" }

/-- A `payment_intent.payment_failed` event for receipt 1 with event id `evt_B`. -/
def evFailedB : StripeEvent :=
  { event_type := "payment_intent.payment_failed"
    event_id := some "evt_B"
    object_id := some "pi_1"
    object_payment_intent := none
    metadata_receipt_id := some "1" }

/-- Variant of `sampleReceipt` with `paid_at` already stamped. -/
def paidReceipt : Receipt := { sampleReceipt with paid_at := some epoch }

/-- A one-row database holding only `paidReceipt`. -/
def paidDb : Db := { rows := [paidReceipt], next_id := 2 }

/-- Variant of `sampleReceipt` paid in cash. -/
def cashReceipt : Receipt := { sampleReceipt with payment_method := "現金" }

/-- A one-row database holding only `cashReceipt`. -/
def cashDb : Db := { rows := [cashReceipt], next_id := 2 }

/-! ### Helper lemmas -/

theorem coalesce_coalesce {α : Type} (a b : Option α) :
    coalesce a (coalesce a b) = coalesce a b := by
  cases a <;> rfl

theorem coalesce_some_absorb {α : Type} (a : Option α) (x y : α) :
    coalesce (coalesce a (some x)) (some y) = coalesce a (some x) := by
  cases a <;> rfl

theorem find?_ext {α : Type} (l : List α) (p q : α → Bool)
    (h : ∀ a, p a = q a) : l.find? p = l.find? q := by
  induction l with
  | nil => rfl
  | cons x xs ih =>
    rw [List.find?_cons, List.find?_cons, h x]
    cases q x <;> simp [ih]

theorem payment_row_update_idem (st : String) (c p e : Option String)
    (t1 t2 : PyDateTime) (r : Receipt) :
    payment_row_update st c p e t2 (payment_row_update st c p e t1 r) =
      payment_row_update st c p e t1 r := by
  by_cases hst : (st == "paid") = true <;>
    simp [payment_row_update, coalesce_coalesce, coalesce_some_absorb, hst]

theorem get_receipt_by_id_update_payment (db : Db) (i : Int) (st : String)
    (c p e : Option String) (t : PyDateTime) (j : Int) :
    get_receipt_by_id (update_receipt_payment_status db i st c p e t) j =
      (get_receipt_by_id db j).map
        (fun r => if ((r.id : Int) == i) then payment_row_update st c p e t r
                  else r) := by
  unfold get_receipt_by_id update_receipt_payment_status
  rw [List.find?_map]
  congr 1
  apply find?_ext
  intro r
  by_cases h : ((r.id : Int) == i) = true <;>
    simp [h, Function.comp, payment_row_update]

theorem map_update_noop (l : List Receipt) (i : Int) (f : Receipt → Receipt)
    (h : ∀ r ∈ l, ((r.id : Int) == i) = true → f r = r) :
    (l.map fun r => if ((r.id : Int) == i) then f r else r) = l := by
  induction l with
  | nil => rfl
  | cons x xs ih =>
    rw [List.map_cons]
    congr 1
    · by_cases hx : ((x.id : Int) == i) = true
      · rw [if_pos hx]; exact h x (List.mem_cons_self x xs) hx
      · rw [if_neg hx]
    · exact ih fun r hr hri => h r (List.mem_cons_of_mem x hr) hri

theorem update_payment_noop (db : Db) (i : Int) (st : String)
    (c p e : Option String) (t : PyDateTime)
    (h : ∀ r ∈ db.rows, ((r.id : Int) == i) = true →
      payment_row_update st c p e t r = r) :
    update_receipt_payment_status db i st c p e t = db := by
  unfold update_receipt_payment_status
  rw [map_update_noop db.rows i _ h]

theorem applyEvent_none (db : Db) (rid : Int) (st : String)
    (c p e : Option String) (t : PyDateTime)
    (h : get_receipt_by_id db rid = none) :
    applyEvent db rid st c p e t = db := by
  unfold applyEvent; rw [h]

theorem applyEvent_some (db : Db) (rid : Int) (st : String)
    (c p e : Option String) (t : PyDateTime) (row : Receipt)
    (h : get_receipt_by_id db rid = some row) :
    applyEvent db rid st c p e t =
      if (row.stripe_last_event_id != e) = true then
        update_receipt_payment_status db rid st c p e t
      else db := by
  unfold applyEvent; rw [h]

theorem applyEvent_idem (db : Db) (rid : Int) (st : String)
    (c p e : Option String) (t1 t2 : PyDateTime) :
    applyEvent (applyEvent db rid st c p e t1) rid st c p e t2 =
      applyEvent db rid st c p e t1 := by
  cases hget : get_receipt_by_id db rid with
  | none =>
    rw [applyEvent_none db rid st c p e t1 hget,
      applyEvent_none db rid st c p e t2 hget]
  | some row =>
    have hid : ((row.id : Int) == rid) = true := by
      have hpred := List.find?_some hget
      exact (Bool.and_eq_true _ _ ▸ hpred).1
    by_cases hgate : (row.stripe_last_event_id != e) = true
    · have h1 : applyEvent db rid st c p e t1 =
          update_receipt_payment_status db rid st c p e t1 := by
        rw [applyEvent_some db rid st c p e t1 row hget, if_pos hgate]
      rw [h1]
      have h2 : get_receipt_by_id (update_receipt_payment_status db rid st c p e t1) rid =
          some (payment_row_update st c p e t1 row) := by
        rw [get_receipt_by_id_update_payment, hget]
        simp [hid]
        intro hc
        exact absurd (eq_of_beq hid) hc
      rw [applyEvent_some _ rid st c p e t2 _ h2]
      cases e with
      | some x =>
        have hlast : (payment_row_update st c p (some x) t1 row).stripe_last_event_id =
            some x := by
          simp [payment_row_update, coalesce]
        rw [hlast]
        simp
      | none =>
        have hlast : (payment_row_update st c p none t1 row).stripe_last_event_id =
            row.stripe_last_event_id := by
          simp [payment_row_update, coalesce]
        rw [hlast, if_pos hgate]
        apply update_payment_noop
        intro r hr hri
        unfold update_receipt_payment_status at hr
        simp only at hr
        obtain ⟨r0, hr0, heq⟩ := List.mem_map.mp hr
        by_cases h0 : ((r0.id : Int) == rid) = true
        · rw [if_pos h0] at heq
          rw [← heq]
          exact payment_row_update_idem st c p none t1 t2 r0
        · rw [if_neg h0] at heq
          rw [← heq] at hri
          exact absurd hri h0
    · have h1 : applyEvent db rid st c p e t1 = db := by
        rw [applyEvent_some db rid st c p e t1 row hget, if_neg hgate]
      rw [h1]
      rw [applyEvent_some db rid st c p e t2 row hget, if_neg hgate]

theorem applyForRid_idem (db : Db) (rid? : Option Int) (st : String)
    (c p e : Option String) (t1 t2 : PyDateTime) :
    applyForRid (applyForRid db rid? st c p e t1) rid? st c p e t2 =
      applyForRid db rid? st c p e t1 := by
  cases rid? with
  | none => rfl
  | some rid =>
    by_cases h0 : (rid != 0) = true
    · simp only [applyForRid, if_pos h0]
      exact applyEvent_idem db rid st c p e t1 t2
    · simp only [applyForRid, if_neg h0]

theorem find?_intent_after_update (l : List Receipt) (pi : String) (i : Int)
    (upd : Receipt → Receipt)
    (hid : ∀ x, (upd x).id = x.id)
    (hpi : ∀ x, (upd x).stripe_payment_intent_id = some pi)
    (r : Receipt)
    (hr : l.find? (fun x => x.stripe_payment_intent_id == some pi) = some r)
    (hri : (r.id : Int) = i) :
    ∃ r', ((l.map fun x => if ((x.id : Int) == i) then upd x else x).find?
        (fun x => x.stripe_payment_intent_id == some pi)) = some r' ∧
      (r'.id : Int) = i := by
  induction l with
  | nil => simp at hr
  | cons x xs ih =>
    rw [List.find?_cons] at hr
    by_cases hq : (x.stripe_payment_intent_id == some pi) = true
    · rw [hq] at hr
      have hxr : x = r := by simpa using hr
      subst hxr
      have hxi : ((x.id : Int) == i) = true := by
        rw [← hri]; exact beq_self_eq_true _
      rw [List.map_cons, List.find?_cons, if_pos hxi, hpi x]
      exact ⟨upd x, by simp, by rw [hid x]; exact hri⟩
    · have hq' : (x.stripe_payment_intent_id == some pi) = false :=
        Bool.not_eq_true _ ▸ (by simpa using hq)
      rw [hq'] at hr
      rw [List.map_cons, List.find?_cons]
      by_cases hxi : ((x.id : Int) == i) = true
      · rw [if_pos hxi, hpi x]
        exact ⟨upd x, by simp, by rw [hid x]; exact eq_of_beq hxi⟩
      · rw [if_neg hxi, hq']
        exact ih hr

theorem resolveByIntent_pos (db : Db) (rid0 : Option Int) (pi : String)
    (hcond : (!truthyInt rid0 && truthyStr (some pi)) = true) :
    resolveByIntent db rid0 (some pi) =
      (match get_receipt_by_stripe_payment_intent db pi with
        | some r => some (r.id : Int)
        | none => none) := by
  unfold resolveByIntent
  rw [if_pos hcond]
  rfl

theorem resolveByIntent_after_applyEvent (db : Db) (rid0 : Option Int)
    (pi : String) (st : String) (e : Option String) (t : PyDateTime)
    (r : Receipt)
    (hcond : (!truthyInt rid0 && truthyStr (some pi)) = true)
    (hint : get_receipt_by_stripe_payment_intent db pi = some r) :
    resolveByIntent (applyEvent db (r.id : Int) st none (some pi) e t) rid0
      (some pi) = some (r.id : Int) := by
  rw [resolveByIntent_pos _ _ _ hcond]
  cases hget : get_receipt_by_id db (r.id : Int) with
  | none =>
    rw [applyEvent_none _ _ _ _ _ _ _ hget, hint]
  | some row =>
    rw [applyEvent_some _ _ _ _ _ _ _ row hget]
    by_cases hgate : (row.stripe_last_event_id != e) = true
    · rw [if_pos hgate]
      unfold get_receipt_by_stripe_payment_intent at hint ⊢
      unfold update_receipt_payment_status
      obtain ⟨r', hfind, hid'⟩ := find?_intent_after_update db.rows pi
        (r.id : Int) (payment_row_update st none (some pi) e t)
        (fun x => rfl) (fun x => by simp [payment_row_update, coalesce])
        r hint rfl
      rw [hfind]
      exact congrArg some hid'
    · rw [if_neg hgate, hint]

theorem intentBranch_idem (db : Db) (rid0 : Option Int) (oid : Option String)
    (st : String) (e : Option String) (t1 t2 : PyDateTime) :
    applyForRid (applyForRid db (resolveByIntent db rid0 oid) st none oid e t1)
      (resolveByIntent
        (applyForRid db (resolveByIntent db rid0 oid) st none oid e t1)
        rid0 oid) st none oid e t2 =
      applyForRid db (resolveByIntent db rid0 oid) st none oid e t1 := by
  by_cases hcond : (!truthyInt rid0 && truthyStr oid) = true
  · cases oid with
    | none => simp [truthyStr] at hcond
    | some pi =>
      cases hint : get_receipt_by_stripe_payment_intent db pi with
      | none =>
        have hres : resolveByIntent db rid0 (some pi) = none := by
          rw [resolveByIntent_pos db rid0 pi hcond, hint]
        rw [hres]
        have hdb1 : applyForRid db none st none (some pi) e t1 = db := rfl
        rw [hdb1, hres]
        rfl
      | some r =>
        have hres : resolveByIntent db rid0 (some pi) = some (r.id : Int) := by
          rw [resolveByIntent_pos db rid0 pi hcond, hint]
        rw [hres]
        by_cases hz : (((r.id : Int)) != 0) = true
        · have hap : applyForRid db (some (r.id : Int)) st none (some pi) e t1 =
              applyEvent db (r.id : Int) st none (some pi) e t1 := by
            simp only [applyForRid, if_pos hz]
          rw [hap]
          rw [resolveByIntent_after_applyEvent db rid0 pi st e t1 r hcond hint]
          simp only [applyForRid, if_pos hz]
          exact applyEvent_idem db (r.id : Int) st none (some pi) e t1 t2
        · have hap : applyForRid db (some (r.id : Int)) st none (some pi) e t1 =
              db := by
            simp only [applyForRid, if_neg hz]
          rw [hap, hres]
          simp only [applyForRid, if_neg hz]
  · have hres : ∀ d, resolveByIntent d rid0 oid = rid0 := by
      intro d; unfold resolveByIntent; rw [if_neg hcond]
    rw [hres, hres]
    exact applyForRid_idem db rid0 st none oid e t1 t2

theorem stripe_webhook_apply_replay (db : Db) (e : StripeEvent)
    (t1 t2 : PyDateTime) :
    stripe_webhook_apply (stripe_webhook_apply db e t1) e t2 =
      stripe_webhook_apply db e t1 := by
  by_cases h1 : (e.event_type == "checkout.session.completed") = true
  · simp only [stripe_webhook_apply, h1, if_true]
    exact applyForRid_idem db (metadataReceiptId e) "paid" e.object_id
      e.object_payment_intent e.event_id t1 t2
  · by_cases h2 : (e.event_type == "payment_intent.succeeded") = true
    · simp only [stripe_webhook_apply, h1, h2, if_true, if_false]
      exact intentBranch_idem db (metadataReceiptId e) e.object_id "paid"
        e.event_id t1 t2
    · by_cases h3 : (e.event_type == "payment_intent.payment_failed") = true
      · simp only [stripe_webhook_apply, h1, h2, h3, if_true, if_false]
        exact intentBranch_idem db (metadataReceiptId e) e.object_id
          "payment_failed" e.event_id t1 t2
      · simp [stripe_webhook_apply, h1, h2, h3]

theorem paid_at_preserved (st : String) (c p e : Option String)
    (t : PyDateTime) (r : Receipt) (d : PyDateTime) (h : r.paid_at = some d) :
    (payment_row_update st c p e t r).paid_at = some d := by
  simp only [payment_row_update]
  rw [h]
  by_cases hst : (st == "paid") = true
  · rw [if_pos hst]; rfl
  · rw [if_neg hst]

theorem get_receipt_by_id_not_deleted (db : Db) (i : Int) (r : Receipt)
    (h : get_receipt_by_id db i = some r) : r.is_deleted = false := by
  have hpred := List.find?_some h
  have h2 := (Bool.and_eq_true _ _ ▸ hpred).2
  simpa using h2

theorem get_receipt_by_certificate_no_not_deleted (db : Db) (c : String)
    (r : Receipt) (h : get_receipt_by_certificate_no db c = some r) :
    r.is_deleted = false := by
  have hpred := List.find?_some h
  have h2 := (Bool.and_eq_true _ _ ▸ hpred).2
  simpa using h2

theorem mem_insertDescById {r x : Receipt} {l : List Receipt}
    (h : r ∈ insertDescById x l) : r = x ∨ r ∈ l := by
  induction l with
  | nil => simpa [insertDescById] using h
  | cons y ys ih =>
    unfold insertDescById at h
    by_cases hle : y.id ≤ x.id
    · rw [if_pos hle] at h
      simpa using h
    · rw [if_neg hle] at h
      rcases List.mem_cons.mp h with hy | hrest
      · exact Or.inr (hy ▸ List.mem_cons_self y ys)
      · rcases ih hrest with h1 | h2
        · exact Or.inl h1
        · exact Or.inr (List.mem_cons_of_mem y h2)

theorem mem_sortDescById {r : Receipt} {l : List Receipt}
    (h : r ∈ sortDescById l) : r ∈ l := by
  induction l with
  | nil => simp [sortDescById] at h
  | cons x xs ih =>
    unfold sortDescById at h
    rcases mem_insertDescById h with h1 | h2
    · exact h1 ▸ List.mem_cons_self x xs
    · exact List.mem_cons_of_mem x (ih h2)

theorem admin_dashboard_not_deleted (db : Db) (r : Receipt)
    (h : r ∈ admin_dashboard_rows db) : r.is_deleted = false := by
  unfold admin_dashboard_rows at h
  have h1 := List.mem_of_mem_take h
  have h2 := mem_sortDescById h1
  have h3 := List.mem_filter.mp h2
  simpa using h3.2

theorem stripe_webhook_ok_replay (ready : Bool) (secret : String)
    (e : StripeEvent) (db : Db) (t1 t2 : PyDateTime) :
    (stripe_webhook ready secret (ConstructEventResult.ok e)
      ((stripe_webhook ready secret (ConstructEventResult.ok e) db t1).2) t2).2 =
    (stripe_webhook ready secret (ConstructEventResult.ok e) db t1).2 := by
  by_cases hr : (!ready) = true
  · simp only [stripe_webhook, if_pos hr]
  · by_cases hs : secret.isEmpty = true
    · simp only [stripe_webhook, if_neg hr, if_pos hs]
    · simp only [stripe_webhook, if_neg hr, if_neg hs]
      exact stripe_webhook_apply_replay db e t1 t2

/-! ### Claim theorems -/

/-- Claim C1: for every receipt and every webhook event, delivering the same
payment-webhook event a second time, immediately after it was applied, is a
no-op: each receipt's `status` and `paid_at` after the second delivery equal
their values after the first delivery. -/
theorem claim_C1_webhook_replay_noop (ready : Bool) (secret : String)
    (e : StripeEvent) (db : Db) (t1 t2 : PyDateTime) (rid : Nat) :
    ((((stripe_webhook ready secret (ConstructEventResult.ok e)
        ((stripe_webhook ready secret (ConstructEventResult.ok e) db t1).2)
        t2).2).rows.find? fun r => r.id == rid).map
          fun r => (r.status, r.paid_at)) =
    ((((stripe_webhook ready secret (ConstructEventResult.ok e) db t1).2).rows.find?
        fun r => r.id == rid).map fun r => (r.status, r.paid_at)) := by
  rw [stripe_webhook_ok_replay]

/-- Claim C2 counterexample: with receipt 1 freshly created, applying event
`evt_A` (paid), then `evt_B` (failed), then delivering `evt_A` again mutates
the receipt a second time — its status flips from `payment_failed` back to
`paid` — because only the last processed event id is stored.  This refutes
the claim that an event id, once applied, is never applied again regardless
of interleaved events. -/
theorem claim_C2_counterexample :
    ((stripe_webhook_apply (stripe_webhook_apply sampleDb evPaidA epoch)
        evFailedB epoch).rows.map Receipt.status = ["payment_failed"]) ∧
    ((stripe_webhook_apply (stripe_webhook_apply (stripe_webhook_apply sampleDb
        evPaidA epoch) evFailedB epoch) evPaidA epoch2).rows.map Receipt.status =
      ["paid"]) :=
  ⟨rfl, rfl⟩

/-- Claim C2 as amended: the event-id gate prevents only consecutive
re-application — delivering the same event immediately again changes nothing
(the whole database state is unchanged by the redelivery). -/
theorem claim_C2_amended_consecutive_gate (db : Db) (e : StripeEvent)
    (t1 t2 : PyDateTime) :
    stripe_webhook_apply (stripe_webhook_apply db e t1) e t2 =
      stripe_webhook_apply db e t1 :=
  stripe_webhook_apply_replay db e t1 t2

/-- Claim C3: `paid_at` is set at most once — once a row's `paid_at` is
non-null, no call to `update_receipt_payment_status` (with any status,
including further paid events) changes its value. -/
theorem claim_C3_paid_at_set_once (db : Db) (rid : Int) (st : String)
    (c p e : Option String) (t : PyDateTime) (idx : Nat) (r : Receipt)
    (d : PyDateTime) (hrow : db.rows[idx]? = some r)
    (hpaid : r.paid_at = some d) :
    ∃ r', (update_receipt_payment_status db rid st c p e t).rows[idx]? =
        some r' ∧ r'.paid_at = some d := by
  unfold update_receipt_payment_status
  simp only
  rw [List.getElem?_map, hrow]
  by_cases h0 : ((r.id : Int) == rid) = true
  · refine ⟨payment_row_update st c p e t r, ?_,
      paid_at_preserved st c p e t r d hpaid⟩
    have heq : (r.id : Int) = rid := eq_of_beq h0
    simp [heq]
  · refine ⟨r, ?_, hpaid⟩
    have hne : ¬((r.id : Int) = rid) := fun hc =>
      h0 (by rw [hc]; exact beq_self_eq_true rid)
    simp [hne]

/-- Witness for C3 at a concrete database. -/
theorem claim_C3_witness :
    ∃ r', (update_receipt_payment_status paidDb 1 "paid" none none
        (some "evt_X") epoch2).rows[0]? = some r' ∧ r'.paid_at = some epoch :=
  claim_C3_paid_at_set_once paidDb 1 "paid" none none (some "evt_X") epoch2 0
    paidReceipt epoch rfl rfl

/-- Claim C4: the certificate number produced by `create_receipt_record` is
`RCPT-`, the donation year, a hyphen, and the assigned row id zero-padded to
6 digits; and the inserted row (the last row of the table) is stamped with
exactly that id and certificate number. -/
theorem claim_C4_certificate_format (db : Db) (name postal_code address email
    amount payment_method : String) (donated_at : PyDateTime)
    (temp_suffix : String) (now : PyDateTime) :
    ((create_receipt_record db name postal_code address email amount
        payment_method donated_at temp_suffix now).2.2 =
      "RCPT-" ++ toString donated_at.year ++ "-" ++
        formatZeroPad6 (create_receipt_record db name postal_code address email
          amount payment_method donated_at temp_suffix now).2.1) ∧
    (((create_receipt_record db name postal_code address email amount
        payment_method donated_at temp_suffix now).1.rows.getLast?).map
          (fun r => (r.id, r.certificate_no)) =
      some ((create_receipt_record db name postal_code address email amount
          payment_method donated_at temp_suffix now).2.1,
        (create_receipt_record db name postal_code address email amount
          payment_method donated_at temp_suffix now).2.2)) := by
  constructor
  · rfl
  · simp [create_receipt_record, List.map_append, List.getLast?_concat]

/-- Claim C5 counterexample: `get_receipt_by_stripe_payment_intent` has no
`is_deleted=0` filter, so a soft-deleted receipt IS returned by the
payment-intent lookup, refuting the claim that every lookup query excludes
soft-deleted rows. -/
theorem claim_C5_counterexample :
    get_receipt_by_stripe_payment_intent deletedDb "pi_123" =
      some deletedIntentReceipt ∧ deletedIntentReceipt.is_deleted = true :=
  ⟨rfl, rfl⟩

/-- Claim C5 as amended: soft-deleted rows are excluded from
`get_receipt_by_id`, `get_receipt_by_certificate_no` and the admin dashboard
list; the payment-intent lookup is the exception (see the counterexample). -/
theorem claim_C5_amended_deleted_excluded (db : Db) (i : Int) (c : String) :
    (((get_receipt_by_id db i).all fun r => !r.is_deleted) = true) ∧
    (((get_receipt_by_certificate_no db c).all fun r => !r.is_deleted) = true) ∧
    (((admin_dashboard_rows db).all fun r => !r.is_deleted) = true) := by
  refine ⟨?_, ?_, ?_⟩
  · cases hfind : get_receipt_by_id db i with
    | none => rfl
    | some r => simp [Option.all, get_receipt_by_id_not_deleted db i r hfind]
  · cases hfind : get_receipt_by_certificate_no db c with
    | none => rfl
    | some r =>
      simp [Option.all, get_receipt_by_certificate_no_not_deleted db c r hfind]
  · rw [List.all_eq_true]
    intro r hr
    simp [admin_dashboard_not_deleted db r hr]

/-- Claim C6: a soft-deleted receipt never appears in the results of the
admin dashboard listing, `get_receipt_by_id`, or
`get_receipt_by_certificate_no`. -/
theorem claim_C6_soft_deleted_hidden (db : Db) (r : Receipt)
    (hdel : r.is_deleted = true) :
    (∀ i : Int, get_receipt_by_id db i ≠ some r) ∧
    (∀ c : String, get_receipt_by_certificate_no db c ≠ some r) ∧
    r ∉ admin_dashboard_rows db := by
  refine ⟨fun i h => ?_, fun c h => ?_, fun h => ?_⟩
  · have := get_receipt_by_id_not_deleted db i r h
    rw [hdel] at this
    exact absurd this (by decide)
  · have := get_receipt_by_certificate_no_not_deleted db c r h
    rw [hdel] at this
    exact absurd this (by decide)
  · have := admin_dashboard_not_deleted db r h
    rw [hdel] at this
    exact absurd this (by decide)

/-- Witness for C6 at a concrete soft-deleted receipt. -/
theorem claim_C6_witness :
    (get_receipt_by_id deletedDb 1 ≠ some deletedIntentReceipt) ∧
    (get_receipt_by_certificate_no deletedDb "RCPT-2025-000001" ≠
      some deletedIntentReceipt) ∧
    deletedIntentReceipt ∉ admin_dashboard_rows deletedDb :=
  ⟨(claim_C6_soft_deleted_hidden deletedDb deletedIntentReceipt rfl).1 1,
   (claim_C6_soft_deleted_hidden deletedDb deletedIntentReceipt rfl).2.1
     "RCPT-2025-000001",
   (claim_C6_soft_deleted_hidden deletedDb deletedIntentReceipt rfl).2.2⟩

/-- Claim C7: the amount string `"¥1,500"` parses to `1500` under the default
bounds, and any amount string whose digit value lies below the configured
minimum or above the configured maximum is rejected by `parse_amount_yen`
(and hence by checkout-session creation, which calls it). -/
theorem claim_C7_amount_parsing :
    (parse_amount_yen 1000 1000000 "¥1,500" = Except.ok 1500) ∧
    ∀ (min_amount max_amount : Nat) (raw : String),
      (digitsToNat (pyDigits raw) < min_amount ∨
        digitsToNat (pyDigits raw) > max_amount) →
      ∃ msg, parse_amount_yen min_amount max_amount raw = Except.error msg := by
  refine ⟨rfl, fun minA maxA raw h => ?_⟩
  simp only [parse_amount_yen]
  by_cases hempty : (pyDigits raw).isEmpty = true
  · rw [if_pos hempty]
    exact ⟨_, rfl⟩
  · rw [if_neg hempty, if_pos h]
    exact ⟨_, rfl⟩

/-- Witness for C7: `"¥500"` is below the configured minimum 1000. -/
theorem claim_C7_witness :
    ∃ msg, parse_amount_yen 1000 1000000 "¥500" = Except.error msg :=
  claim_C7_amount_parsing.2 1000 1000000 "¥500" (Or.inl (by decide))

/-- Claim C8: a checkout-session request for a receipt whose payment method
is not credit card (resolved either by receipt id or by certificate number)
is rejected with the 400 method-mismatch error, and the database state is
unchanged. -/
theorem claim_C8_method_mismatch (min_amount max_amount : Nat) (db : Db)
    (s cert : String) (sc : StripeSessionResult) (now : PyDateTime)
    (rid : Int) (row : Receipt) :
    ((pyParseInt s = some rid) → s.isEmpty = false →
      get_receipt_by_id db rid = some row →
      normalize_payment_method row.payment_method ≠ "credit_card" →
      create_checkout_session true min_amount max_amount db (some s) cert sc
          now =
        ({ status_code := 400, ok := false,
           error := some "クレジットカード決済のデータではありません。" }, db)) ∧
    ((pyStrip cert).isEmpty = false →
      get_receipt_by_certificate_no db (pyStrip cert) = some row →
      normalize_payment_method row.payment_method ≠ "credit_card" →
      create_checkout_session true min_amount max_amount db none cert sc now =
        ({ status_code := 400, ok := false,
           error := some "クレジットカード決済のデータではありません。" }, db)) := by
  constructor
  · intro hp hs hrow hne
    have hb : (normalize_payment_method row.payment_method != "credit_card") =
        true := bne_iff_ne.mpr hne
    simp [create_checkout_session, hp, hs, hrow, hb]
  · intro hcert hrow hne
    have hb : (normalize_payment_method row.payment_method != "credit_card") =
        true := bne_iff_ne.mpr hne
    simp [create_checkout_session, hcert, hrow, hb]

/-- Witness for C8 at a concrete cash receipt, via both resolution paths. -/
theorem claim_C8_witness :
    (create_checkout_session true 1000 1000000 cashDb (some "1") ""
        (StripeSessionResult.ok "cs_1" "https://example.com/pay") epoch =
      ({ status_code := 400, ok := false,
         error := some "クレジットカード決済のデータではありません。" }, cashDb)) ∧
    (create_checkout_session true 1000 1000000 cashDb none "RCPT-2025-000001"
        (StripeSessionResult.ok "cs_1" "https://example.com/pay") epoch =
      ({ status_code := 400, ok := false,
         error := some "クレジットカード決済のデータではありません。" }, cashDb)) :=
  ⟨(claim_C8_method_mismatch 1000 1000000 cashDb "1" ""
      (StripeSessionResult.ok "cs_1" "https://example.com/pay") epoch 1
      cashReceipt).1 rfl rfl rfl (by decide),
   (claim_C8_method_mismatch 1000 1000000 cashDb "1" "RCPT-2025-000001"
      (StripeSessionResult.ok "cs_1" "https://example.com/pay") epoch 1
      cashReceipt).2 rfl rfl (by decide)⟩

/-- Claim C9: a webhook request with a malformed payload or an invalid
signature (against a configured, non-empty secret) is rejected with a 400
response before any state change — the database is returned unchanged. -/
theorem claim_C9_webhook_reject (secret : String) (db : Db) (t : PyDateTime)
    (hsecret : secret.isEmpty = false) :
    (stripe_webhook true secret ConstructEventResult.invalidPayload db t =
      ({ status_code := 400, ok := false, error := some "Invalid payload" },
        db)) ∧
    (stripe_webhook true secret ConstructEventResult.invalidSignature db t =
      ({ status_code := 400, ok := false, error := some "Invalid signature" },
        db)) := by
  constructor <;> simp [stripe_webhook, hsecret]

/-- Witness for C9 with a concrete secret. -/
theorem claim_C9_witness :
    (stripe_webhook true "whsec_test" ConstructEventResult.invalidPayload
        sampleDb epoch =
      ({ status_code := 400, ok := false, error := some "Invalid payload" },
        sampleDb)) ∧
    (stripe_webhook true "whsec_test" ConstructEventResult.invalidSignature
        sampleDb epoch =
      ({ status_code := 400, ok := false, error := some "Invalid signature" },
        sampleDb)) :=
  claim_C9_webhook_reject "whsec_test" sampleDb epoch rfl

/-- Claim C10: `update_receipt_status` can modify only the `status` and
`download_token` columns of a row — every other field is unchanged — and
when it is called with `token = None`, the previously stored
`download_token` is preserved as well. -/
theorem claim_C10_update_status_frame (db : Db) (rid : Nat) (st : String)
    (token : Option String) (idx : Nat) (r : Receipt)
    (hrow : db.rows[idx]? = some r) :
    ∃ r', (update_receipt_status db rid st token).rows[idx]? = some r' ∧
      (token = none → r'.download_token = r.download_token) ∧
      r'.id = r.id ∧ r'.certificate_no = r.certificate_no ∧
      r'.donor_name = r.donor_name ∧
      r'.donor_postal_code = r.donor_postal_code ∧
      r'.donor_address = r.donor_address ∧ r'.donor_email = r.donor_email ∧
      r'.amount_yen = r.amount_yen ∧ r'.payment_method = r.payment_method ∧
      r'.donated_at = r.donated_at ∧ r'.is_checked = r.is_checked ∧
      r'.checked_at = r.checked_at ∧ r'.checked_by = r.checked_by ∧
      r'.is_deleted = r.is_deleted ∧ r'.deleted_at = r.deleted_at ∧
      r'.deleted_by = r.deleted_by ∧ r'.created_at = r.created_at ∧
      r'.stripe_checkout_session_id = r.stripe_checkout_session_id ∧
      r'.stripe_payment_intent_id = r.stripe_payment_intent_id ∧
      r'.stripe_last_event_id = r.stripe_last_event_id ∧
      r'.paid_at = r.paid_at := by
  unfold update_receipt_status
  simp only
  rw [List.getElem?_map, hrow]
  by_cases h0 : (r.id == rid) = true
  · refine ⟨{ r with status := st, download_token := coalesce token r.download_token }, ?_, fun htok => by rw [htok]; rfl, rfl, rfl, rfl, rfl, rfl, rfl, rfl, rfl, rfl, rfl, rfl, rfl, rfl, rfl, rfl, rfl, rfl, rfl, rfl, rfl⟩
    have heq : r.id = rid := eq_of_beq h0
    simp [heq]
  · refine ⟨r, ?_, fun _ => rfl, rfl, rfl, rfl, rfl, rfl, rfl, rfl,
      rfl, rfl, rfl, rfl, rfl, rfl, rfl, rfl, rfl, rfl, rfl, rfl, rfl⟩
    have hne : ¬(r.id = rid) := fun hc =>
      h0 (by rw [hc]; exact beq_self_eq_true rid)
    simp [hne]

/-- Witness for C10 at a concrete database: the stored token is preserved
when the update passes no token. -/
theorem claim_C10_witness :
    ∃ r', (update_receipt_status sampleDb 1 "issued" none).rows[0]? = some r' ∧
      r'.download_token = sampleReceipt.download_token :=
  match claim_C10_update_status_frame sampleDb 1 "issued" none 0 sampleReceipt
    rfl with
  | ⟨r', h1, h2, _⟩ => ⟨r', h1, h2 rfl⟩

end Donation
